import Mathlib

/-!
# Verification of the Hack-NaSa Bluetooth hybrid manager core

Shallow embedding of `nasa_backend/bluetooth_hybrid_manager.py` and
`nasa_backend/app/services/bluetooth_service.py`: the identity-resolution
step of `scan_all_devices`, the BLE scan RSSI filter, the GATT
characteristic access layer (`read_gatt_characteristic`,
`write_gatt_characteristic`), the battery fallback chain
(`get_system_battery_info`, `get_battery_level_direct`), the system connect
(`connect_device_system`), and the service-layer `list_gatt_services`.

External effects (subprocess calls to `blueutil`/`ioreg`, BleakClient GATT
I/O, `time.sleep`/`asyncio.sleep`) are modelled by explicit environment
records supplying their results, and each operation additionally returns
the ordered trace of external events it performs, so that ordering and
"no-session-opened" properties can be stated.
-/

namespace HackNasa

/-- Python's `s.lower()`: lower-case every character. -/
def pyLower (s : String) : String :=
  ⟨s.data.map Char.toLower⟩

/-- Python string truthiness of an `Optional[str]`: `None` and `""` are falsy. -/
def pyTruthyStr : Option String → Bool
  | none => false
  | some s => s ≠ ""

/-- Python `ble_address if ble_address else address` (the target-address fallback
used by every GATT operation of the hybrid manager). -/
def pyStrOr (o : Option String) (dflt : String) : String :=
  match o with
  | none => dflt
  | some s => if s = "" then dflt else s

/-! ## Identity resolution (`get_paired_devices`, `scan_ble_devices`, `scan_all_devices`) -/

/-- One entry of the list returned by `get_paired_devices`:
`{'address': ..., 'name': ..., 'connected': ...}`. -/
structure PairedDevice where
  address : String
  name : String
  connected : Bool
deriving Repr, DecidableEq

/-- One raw advertisement seen by the `BleakScanner` during `scan_ble_devices`,
before the RSSI filter: `(address, (device, adv_data))`. -/
structure BleAdvert where
  address : String
  /-- Source `device.name`; `None` when the advertisement carries no name. -/
  name : Option String
  rssi : Int
deriving Repr, DecidableEq

/-- One entry of the list returned by `scan_ble_devices`:
`{'address': ..., 'name': ..., 'connected': False, 'type': 'BLE'}`. -/
structure BleDevice where
  address : String
  name : String
deriving Repr, DecidableEq

/-- Source `name = device.name or "Unknown BLE Device"` (Python `or` falls back on
both `None` and the empty string). -/
def bleDisplayName (n : Option String) : String :=
  match n with
  | none => "Unknown BLE Device"
  | some s => if s = "" then "Unknown BLE Device" else s

/-- Model of `scan_ble_devices`: keep exactly the advertisements with
`adv_data.rssi > -70`, producing the sighting dicts in discovery order. -/
def scan_ble_devices (adverts : List BleAdvert) : List BleDevice :=
  (adverts.filter (fun a => a.rssi > -70)).map
    (fun a => { address := a.address, name := bleDisplayName a.name })

/-- One entry of the unified list returned by `scan_all_devices`.  A paired
device keeps its dict keys `address`/`name`/`connected` and optionally gains
`ble_address` / `ble_addresses_all`; a BLE-only entry is the sighting dict
(whose `address` is the BLE address) marked with `'type': 'BLE'`. -/
structure DeviceRecord where
  address : String
  name : String
  connected : Bool
  ble_address : Option String
  ble_addresses_all : Option (List String)
  isBle : Bool
deriving Repr, DecidableEq

/-- The system (classic-profile) address of a record: present exactly on
records that came from the paired list. -/
def DeviceRecord.systemAddress (r : DeviceRecord) : Option String :=
  if r.isBle then none else some r.address

/-- The BLE address of a record: a BLE-only record carries it in its
`address` key, a paired record in its optional `ble_address` key. -/
def DeviceRecord.bleAddr (r : DeviceRecord) : Option String :=
  if r.isBle then some r.address else r.ble_address

/-- Index `ble_by_name[name_key]`: the BLE sightings whose lower-cased name equals
the key, in discovery order (the dict lists are built by appending while
iterating the scan result). -/
def bleMatchesFor (ble : List BleDevice) (nameKey : String) : List BleDevice :=
  ble.filter (fun b => pyLower b.name = nameKey)

/-- The body of the matching loop of `scan_all_devices` for one paired
device: no match leaves the dict unchanged, a unique match sets
`ble_address`, several matches set `ble_address` to the first and
`ble_addresses_all` to all of them. -/
def matchPaired (ble : List BleDevice) (d : PairedDevice) : DeviceRecord :=
  match bleMatchesFor ble (pyLower d.name) with
  | [] => ⟨d.address, d.name, d.connected, none, none, false⟩
  | [m] => ⟨d.address, d.name, d.connected, some m.address, none, false⟩
  | m :: m' :: rest =>
      ⟨d.address, d.name, d.connected, some m.address,
        some ((m :: m' :: rest).map (·.address)), false⟩

/-- Set `processed_ble_addresses` after the whole matching loop: the lower-cased
addresses of every BLE sighting matched by some paired device's name. -/
def claimedAddresses (paired : List PairedDevice) (ble : List BleDevice) : List String :=
  paired.flatMap (fun d => (bleMatchesFor ble (pyLower d.name)).map (fun m => pyLower m.address))

/-- The identity-resolution step of `scan_all_devices`: every paired device
is emitted (with its BLE matches attached), then every BLE sighting whose
lower-cased address was not claimed is appended as a BLE-only record. -/
def scan_all_devices (paired : List PairedDevice) (ble : List BleDevice) : List DeviceRecord :=
  paired.map (matchPaired ble) ++
    (ble.filter (fun b => ¬ (claimedAddresses paired ble).contains (pyLower b.address))).map
      (fun b => ⟨b.address, b.name, false, none, none, true⟩)

/-! ## External events and the GATT characteristic access layer -/

/-- Python `uuid.isdigit()` for the character range relevant here: non-empty and
made of decimal digits only. -/
def isDigits (s : String) : Bool :=
  decide (s ≠ "") && s.data.all Char.isDigit

/-- Python `int(s)` for a decimal-digit string. -/
def parseDecimal (s : String) : Nat :=
  s.data.foldl (fun n c => 10 * n + (c.toNat - 48)) 0

/-- The tagged form of a caller-supplied characteristic identifier: either a
numeric attribute handle or a UUID string. -/
inductive AttributeRef where
  | handle (n : Nat)
  | uuid (s : String)
deriving Repr, DecidableEq

/-- The identifier dispatch shared by `read_gatt_characteristic` and
`write_gatt_characteristic`: `if uuid.isdigit(): ... int(uuid) ... else:
... uuid ...`. -/
def resolveIdentifier (s : String) : AttributeRef :=
  if isDigits s then .handle (parseDecimal s) else .uuid s

/-- An external side effect performed by an operation, in order. -/
inductive Event where
  /-- Call `blueutil --disconnect address` via `disconnect_device_system`. -/
  | disconnectSystem (address : String)
  /-- Call `blueutil --connect address`. -/
  | systemConnect (address : String)
  /-- Call `time.sleep(n)` / `await asyncio.sleep(n)`. -/
  | sleep (seconds : Nat)
  /-- Call `BleakClient(address, timeout=t)` followed by `await client.connect()`. -/
  | gattConnectAttempt (address : String) (timeout : Nat)
  /-- Call `await client.read_gatt_char(ref)`. -/
  | gattRead (ref : AttributeRef)
  /-- Call `await client.write_gatt_char(ref, data)`. -/
  | gattWrite (ref : AttributeRef) (data : List Nat)
  /-- Call `await client.disconnect()`. -/
  | gattDisconnect
  /-- the `ioreg -r -c IOBluetoothDevice` host battery query. -/
  | hostBatteryQuery (address : String)
deriving Repr, DecidableEq

/-- Does the event open (attempt to open) a GATT session? -/
def Event.isGattConnect : Event → Bool
  | .gattConnectAttempt _ _ => true
  | _ => false

/-- Results of the external GATT transport, as seen by one operation. -/
structure GattEnv where
  /-- whether `await client.connect()` succeeds and leaves
  `client.is_connected` true (a raised exception and a false
  `is_connected` flag both end the operation the same way). -/
  connectSucceeds : Bool
  /-- Result of `await client.read_gatt_char(ref)`: the returned bytes (as values
  0–255), or `none` when the device rejects the read. -/
  readResult : AttributeRef → Option (List Nat)
  /-- Result of `await client.write_gatt_char(ref, data)`: whether the write is
  accepted. -/
  writeOk : AttributeRef → List Nat → Bool

/-- Model of `read_gatt_characteristic(address, uuid, name, ble_address,
is_connected)`: returns the bytes read (or `None`) together with the trace
of external events. -/
def read_gatt_characteristic (env : GattEnv) (address uuid : String)
    (ble_address : Option String) (is_connected : Bool) :
    Option (List Nat) × List Event :=
  let target := pyStrOr ble_address address
  let pre : List Event :=
    if is_connected then [.disconnectSystem address, .sleep 2] else []
  if env.connectSucceeds then
    let ref := resolveIdentifier uuid
    match env.readResult ref with
    | some v => (some v, pre ++ [.gattConnectAttempt target 15, .gattRead ref, .gattDisconnect])
    | none => (none, pre ++ [.gattConnectAttempt target 15, .gattRead ref, .gattDisconnect])
  else
    (none, pre ++ [.gattConnectAttempt target 15])

/-- Model of `write_gatt_characteristic(address, uuid, data, name, ble_address,
is_connected)`: returns the success flag together with the trace of
external events. -/
def write_gatt_characteristic (env : GattEnv) (address uuid : String)
    (data : List Nat) (ble_address : Option String) (is_connected : Bool) :
    Bool × List Event :=
  let target := pyStrOr ble_address address
  let pre : List Event :=
    if is_connected then [.disconnectSystem address, .sleep 2] else []
  if env.connectSucceeds then
    let ref := resolveIdentifier uuid
    (env.writeOk ref data, pre ++ [.gattConnectAttempt target 15, .gattWrite ref data, .gattDisconnect])
  else
    (false, pre ++ [.gattConnectAttempt target 15])

/-! ## Host-level battery lookup (`get_system_battery_info`) -/

/-- One line of `ioreg -r -c IOBluetoothDevice` output, pre-classified the
way the parsing loop classifies it: an `"Address" = ...` line (carrying the
raw extracted address string, quotes already stripped), a
`"BatteryPercent" = ...` line (carrying the integer formed from its
digits), or any other line.  A battery line whose value part contains no
digit raises `ValueError` in the loop and is swallowed, so it behaves like
an `other` line. -/
inductive HostLine where
  | addressLine (addr : String)
  | batteryLine (battery : Nat)
  | other
deriving Repr, DecidableEq

/-- Normalization `addr.lower().replace('-', ':')`, applied to both the queried address
and every address parsed out of the `ioreg` output. -/
def normalizeAddr (s : String) : String :=
  ⟨(pyLower s).data.map (fun c => if c = '-' then ':' else c)⟩

/-- The parsing loop of `get_system_battery_info`: remembers the last
normalized `Address` line and returns the first `BatteryPercent` value seen
while that remembered address equals the normalized target. -/
def batteryScanLoop (tgt : String) : Option String → List HostLine → Option Nat
  | _, [] => none
  | _, .addressLine a :: rest => batteryScanLoop tgt (some (normalizeAddr a)) rest
  | current, .batteryLine b :: rest =>
      if current = some tgt then some b else batteryScanLoop tgt current rest
  | current, .other :: rest => batteryScanLoop tgt current rest

/-- Model of `get_system_battery_info(address)`: `None` when the `ioreg` call itself
fails, otherwise the result of the parsing loop over its output lines. -/
def get_system_battery_info (ioregOk : Bool) (address : String)
    (lines : List HostLine) : Option Nat :=
  if ioregOk then batteryScanLoop (normalizeAddr address) none lines else none

/-- The (raw address, battery) pairs the `ioreg` output groups into: each
battery line paired with the most recent address line before it (battery
lines before any address line are dropped, as the loop requires
`'address' in current_device_info`). -/
def hostEntries : Option String → List HostLine → List (String × Nat)
  | _, [] => []
  | _, .addressLine a :: rest => hostEntries (some a) rest
  | current, .batteryLine b :: rest =>
      (match current with
       | some a => [(a, b)]
       | none => []) ++ hostEntries current rest
  | current, .other :: rest => hostEntries current rest

/-- All battery values appearing in the `ioreg` output. -/
def hostBatteryValues (lines : List HostLine) : List Nat :=
  lines.filterMap (fun l => match l with | .batteryLine b => some b | _ => none)

/-! ## Battery fallback chain (`get_battery_level_direct`) -/

/-- Constant `BATTERY_SERVICE_UUID`. -/
def batteryServiceUuid : String := "0000180f-0000-1000-8000-00805f9b34fb"

/-- Constant `BATTERY_LEVEL_CHAR_UUID`. -/
def batteryLevelCharUuid : String := "00002a19-0000-1000-8000-00805f9b34fb"

/-- Python's `pat in s` substring test. -/
def strContainsSubstr (s pat : String) : Bool :=
  decide (pat.data <:+: s.data)

/-- One GATT characteristic as enumerated from `client.services`. -/
structure GattChar where
  uuid : String
  handle : Nat
deriving Repr, DecidableEq

/-- One GATT service as enumerated from `client.services`. -/
structure GattService where
  uuid : String
  characteristics : List GattChar
deriving Repr, DecidableEq

/-- The inner loop of the battery search: among the given characteristics,
find the first whose UUID contains the Battery Level UUID and whose
handle-read yields a non-empty byte string; `int(value[0])` is its first
byte.  A rejected read or an empty value (`IndexError`) is swallowed by the
`except ... continue`. -/
def readFirstBatteryChar (readChar : Nat → Option (List Nat)) :
    List GattChar → Option Nat
  | [] => none
  | c :: rest =>
      if strContainsSubstr (pyLower c.uuid) (pyLower batteryLevelCharUuid) then
        match readChar c.handle with
        | some (b :: _) => some b
        | _ => readFirstBatteryChar readChar rest
      else
        readFirstBatteryChar readChar rest

/-- First battery-search pass of `get_battery_level_direct`: only services
whose UUID contains the Battery Service UUID are searched. -/
def batteryFromBatteryServices (readChar : Nat → Option (List Nat)) :
    List GattService → Option Nat
  | [] => none
  | s :: rest =>
      if strContainsSubstr (pyLower s.uuid) (pyLower batteryServiceUuid) then
        match readFirstBatteryChar readChar s.characteristics with
        | some b => some b
        | none => batteryFromBatteryServices readChar rest
      else
        batteryFromBatteryServices readChar rest

/-- Second battery-search pass of `get_battery_level_direct`: every service
is searched for a Battery Level characteristic. -/
def batteryFromAllServices (readChar : Nat → Option (List Nat)) :
    List GattService → Option Nat
  | [] => none
  | s :: rest =>
      match readFirstBatteryChar readChar s.characteristics with
      | some b => some b
      | none => batteryFromAllServices readChar rest

/-- The external world as seen by one `get_battery_level_direct` call. -/
structure BatteryEnv where
  /-- whether the `ioreg` subprocess completes with return code 0. -/
  ioregOk : Bool
  /-- the classified `ioreg` output lines. -/
  hostLines : List HostLine
  /-- whether the fallback `BleakClient(target, timeout=10.0).connect()`
  succeeds and leaves `is_connected` true. -/
  connectSucceeds : Bool
  /-- Enumerated `client.services` of the fallback session. -/
  services : List GattService
  /-- Result of `await client.read_gatt_char(handle)`: bytes (values 0–255) or `none`
  when the device rejects the read. -/
  readChar : Nat → Option (List Nat)

/-- Model of `get_battery_level_direct(address, name, ble_address, is_connected)`:
host-level lookup first, then the GATT fallback; returns the battery value
(or `None`) together with the trace of external events. -/
def get_battery_level_direct (env : BatteryEnv) (address : String)
    (ble_address : Option String) (is_connected : Bool) :
    Option Nat × List Event :=
  match get_system_battery_info env.ioregOk address env.hostLines with
  | some b => (some b, [.hostBatteryQuery address])
  | none =>
      let target := pyStrOr ble_address address
      let pre : List Event :=
        .hostBatteryQuery address ::
          (if is_connected then [.disconnectSystem address, .sleep 2] else [])
      if env.connectSucceeds then
        let result :=
          match batteryFromBatteryServices env.readChar env.services with
          | some b => some b
          | none => batteryFromAllServices env.readChar env.services
        (result, pre ++ [.gattConnectAttempt target 10, .gattDisconnect])
      else
        (none, pre ++ [.gattConnectAttempt target 10])

/-! ## System connect (`connect_device_system`) -/

/-- Result of the `blueutil --connect` subprocess: `none` when the call
raises (e.g. `TimeoutExpired`), otherwise whether its return code was 0. -/
structure SystemConnectEnv where
  osConnectResult : Option Bool

/-- Assignment `self.known_devices[address] = name` on a dict modelled as an
association list: update in place when the key exists, append otherwise. -/
def dictInsert (d : List (String × String)) (k v : String) :
    List (String × String) :=
  if d.any (fun p => p.1 = k) then
    d.map (fun p => if p.1 = k then (k, v) else p)
  else
    d ++ [(k, v)]

/-- Python dict lookup `d.get(k)` on the association-list model. -/
def dictGet (d : List (String × String)) (k : String) : Option String :=
  (d.find? (fun p => p.1 = k)).map (·.2)

/-- Model of `connect_device_system(address, name)`: on OS-level success, persist
`address → name` to `known_devices` (and its JSON file) and sleep 2 s
before returning `True`; on failure or exception, return `False` leaving
`known_devices` unchanged.  Returns (result, new known-devices map, event
trace). -/
def connect_device_system (env : SystemConnectEnv)
    (known : List (String × String)) (address name : String) :
    Bool × List (String × String) × List Event :=
  match env.osConnectResult with
  | some true =>
      (true, dictInsert known address name, [.systemConnect address, .sleep 2])
  | some false => (false, known, [.systemConnect address])
  | none => (false, known, [.systemConnect address])

/-! ## Service layer (`BluetoothService.list_gatt_services`) -/

/-- The error message of the validation branch of `list_gatt_services`. -/
def noBleErrorMsg : String := "BLE UUID가 없어 GATT 연결을 할 수 없습니다"

/-- The error message of the transport-failure branch of
`list_gatt_services`. -/
def gattConnectErrorMsg : String := "GATT 연결 실패"

/-- The response dict of `list_gatt_services`, restricted to the fields the
claims are about: the optional `error` string and the `services` list. -/
structure ServiceListing where
  error : Option String
  services : List GattService
deriving Repr, DecidableEq

/-- The external world as seen by one `list_gatt_services` call. -/
structure ServiceEnv where
  /-- Flag `self.repo.is_device_connected(address)`. -/
  deviceConnected : Bool
  /-- Result of `self.repo.get_gatt_services_raw(ble_address)`: the enumerated
  services, or `none` when the GATT connect failed. -/
  rawServices : Option (List GattService)

/-- Model of `BluetoothService.list_gatt_services(address, name, ble_address)`:
validation of `ble_address` first, then the teardown-and-connect sequence.
The per-characteristic value reads of `_transform_gatt_services` are
outside the claims and are not traced. -/
def list_gatt_services (env : ServiceEnv) (address : String)
    (ble_address : Option String) : ServiceListing × List Event :=
  if pyTruthyStr ble_address then
    let target := ble_address.getD ""
    let pre : List Event :=
      if env.deviceConnected then [.disconnectSystem address, .sleep 2] else []
    match env.rawServices with
    | none =>
        ({ error := some gattConnectErrorMsg, services := [] },
          pre ++ [.gattConnectAttempt target 15])
    | some svcs =>
        ({ error := none, services := svcs },
          pre ++ [.gattConnectAttempt target 15])
  else
    ({ error := some noBleErrorMsg, services := [] }, [])

/-! ## Helper lemmas -/

/-- Every record built from a paired device keeps `isBle = false`. -/
theorem matchPaired_isBle (ble : List BleDevice) (d : PairedDevice) :
    (matchPaired ble d).isBle = false := by
  unfold matchPaired
  split <;> rfl

/-- A sighting matched by name is one of the scanned sightings. -/
theorem mem_of_mem_bleMatchesFor {ble : List BleDevice} {k : String}
    {b : BleDevice} (h : b ∈ bleMatchesFor ble k) : b ∈ ble :=
  List.mem_of_mem_filter h

/-- Membership in the unified catalog, unfolded: a record is either the
match result of some paired device or an unclaimed BLE sighting. -/
theorem mem_scan_all_devices {paired : List PairedDevice} {ble : List BleDevice}
    {r : DeviceRecord} (hr : r ∈ scan_all_devices paired ble) :
    (∃ d ∈ paired, r = matchPaired ble d) ∨
    (∃ b ∈ ble, ¬ (claimedAddresses paired ble).contains (pyLower b.address) ∧
       r = ⟨b.address, b.name, false, none, none, true⟩) := by
  rcases List.mem_append.1 hr with h | h
  · rcases List.mem_map.1 h with ⟨d, hd, rfl⟩
    exact Or.inl ⟨d, hd, rfl⟩
  · rcases List.mem_map.1 h with ⟨b, hb, rfl⟩
    rcases List.mem_filter.1 hb with ⟨hb1, hb2⟩
    refine Or.inr ⟨b, hb1, ?_, rfl⟩
    simpa using hb2

/-! ## Claim theorems: identity resolution -/

/-- C1: every device record emitted by the identity-resolution step of
`scan_all_devices` has at least one of its system address or its BLE
address set; a record with neither is never emitted. -/
theorem scan_all_devices_address_invariant (paired : List PairedDevice)
    (ble : List BleDevice) (r : DeviceRecord)
    (hr : r ∈ scan_all_devices paired ble) :
    r.systemAddress ≠ none ∨ r.bleAddr ≠ none := by
  rcases mem_scan_all_devices hr with ⟨d, _, rfl⟩ | ⟨b, _, _, rfl⟩
  · left
    simp [DeviceRecord.systemAddress, matchPaired_isBle]
  · right
    simp [DeviceRecord.bleAddr]

/-- Witness for C1 at a concrete scan: one paired device matched by one
sighting. -/
theorem scan_all_devices_address_invariant_witness :
    (DeviceRecord.mk "AA:BB" "Buds" true (some "11:22") none false).systemAddress ≠ none ∨
    (DeviceRecord.mk "AA:BB" "Buds" true (some "11:22") none false).bleAddr ≠ none :=
  scan_all_devices_address_invariant [⟨"AA:BB", "Buds", true⟩] [⟨"11:22", "Buds"⟩]
    ⟨"AA:BB", "Buds", true, some "11:22", none, false⟩ (by decide)

/-- C5: a paired device whose lower-cased name matches two or more BLE
sightings is emitted with `ble_addresses_all` listing all matched addresses
in scan order, `ble_address` equal to its head, and every matched address
claimed, so no emitted BLE-only record carries any of them. -/
theorem scan_all_devices_multi_match (paired : List PairedDevice)
    (ble : List BleDevice) (d : PairedDevice) (hd : d ∈ paired)
    (h2 : 2 ≤ (bleMatchesFor ble (pyLower d.name)).length) :
    matchPaired ble d ∈ scan_all_devices paired ble ∧
    (matchPaired ble d).ble_addresses_all =
      some ((bleMatchesFor ble (pyLower d.name)).map (·.address)) ∧
    (matchPaired ble d).ble_address =
      ((bleMatchesFor ble (pyLower d.name)).map (·.address)).head? ∧
    ∀ m ∈ bleMatchesFor ble (pyLower d.name),
      ∀ r ∈ scan_all_devices paired ble, r.isBle = true →
        pyLower r.address ≠ pyLower m.address := by
  obtain ⟨m1, m2, rest, hms⟩ :
      ∃ m1 m2 rest, bleMatchesFor ble (pyLower d.name) = m1 :: m2 :: rest := by
    rcases hxs : bleMatchesFor ble (pyLower d.name) with _ | ⟨m1, _ | ⟨m2, rest⟩⟩
    · rw [hxs] at h2; simp at h2
    · rw [hxs] at h2; simp at h2
    · exact ⟨m1, m2, rest, rfl⟩
  refine ⟨?_, ?_, ?_, ?_⟩
  · exact List.mem_append.2 (Or.inl (List.mem_map.2 ⟨d, hd, rfl⟩))
  · simp [matchPaired, hms]
  · simp [matchPaired, hms]
  · intro m hm r hr hble
    have hclaim : pyLower m.address ∈ claimedAddresses paired ble :=
      List.mem_flatMap.2 ⟨d, hd, List.mem_map.2 ⟨m, hm, rfl⟩⟩
    rcases mem_scan_all_devices hr with ⟨d', _, rfl⟩ | ⟨b, _, hnc, rfl⟩
    · rw [matchPaired_isBle] at hble
      exact absurd hble (by simp)
    · intro heq
      exact hnc (by simpa [heq] using List.elem_iff.2 hclaim)

/-- Witness for C5: one paired device, two sightings sharing its name. -/
theorem scan_all_devices_multi_match_witness :
    matchPaired [⟨"11:22", "Buds"⟩, ⟨"33:44", "Buds"⟩] ⟨"AA:BB", "Buds", true⟩ ∈
      scan_all_devices [⟨"AA:BB", "Buds", true⟩]
        [⟨"11:22", "Buds"⟩, ⟨"33:44", "Buds"⟩] ∧
    (matchPaired [⟨"11:22", "Buds"⟩, ⟨"33:44", "Buds"⟩]
        ⟨"AA:BB", "Buds", true⟩).ble_addresses_all =
      some ((bleMatchesFor [⟨"11:22", "Buds"⟩, ⟨"33:44", "Buds"⟩]
        (pyLower "Buds")).map (·.address)) ∧
    (matchPaired [⟨"11:22", "Buds"⟩, ⟨"33:44", "Buds"⟩]
        ⟨"AA:BB", "Buds", true⟩).ble_address =
      ((bleMatchesFor [⟨"11:22", "Buds"⟩, ⟨"33:44", "Buds"⟩]
        (pyLower "Buds")).map (·.address)).head? ∧
    ∀ m ∈ bleMatchesFor [⟨"11:22", "Buds"⟩, ⟨"33:44", "Buds"⟩] (pyLower "Buds"),
      ∀ r ∈ scan_all_devices [⟨"AA:BB", "Buds", true⟩]
          [⟨"11:22", "Buds"⟩, ⟨"33:44", "Buds"⟩], r.isBle = true →
        pyLower r.address ≠ pyLower m.address :=
  scan_all_devices_multi_match [⟨"AA:BB", "Buds", true⟩]
    [⟨"11:22", "Buds"⟩, ⟨"33:44", "Buds"⟩] ⟨"AA:BB", "Buds", true⟩
    (by decide) (by decide)

/-- C9: a BLE sighting is kept by `scan_ble_devices` exactly when its RSSI
is strictly greater than −70, and consequently every BLE address appearing
anywhere in the unified catalog (as a BLE-only record's address, a
`ble_address`, or inside `ble_addresses_all`) comes from an advertisement
with RSSI > −70. -/
theorem scan_ble_devices_rssi_filter (adverts : List BleAdvert)
    (paired : List PairedDevice) :
    (∀ b, b ∈ scan_ble_devices adverts ↔
        ∃ a ∈ adverts, a.rssi > -70 ∧
          b = { address := a.address, name := bleDisplayName a.name }) ∧
    (∀ r ∈ scan_all_devices paired (scan_ble_devices adverts),
        (∀ addr, r.bleAddr = some addr →
          ∃ a ∈ adverts, a.rssi > -70 ∧ addr = a.address) ∧
        (∀ addrs, r.ble_addresses_all = some addrs → ∀ addr ∈ addrs,
          ∃ a ∈ adverts, a.rssi > -70 ∧ addr = a.address)) := by
  have hmem : ∀ b : BleDevice, b ∈ scan_ble_devices adverts →
      ∃ a ∈ adverts, a.rssi > -70 ∧ b.address = a.address := by
    intro b hb
    rcases List.mem_map.1 hb with ⟨a, ha, rfl⟩
    rcases List.mem_filter.1 ha with ⟨ha1, ha2⟩
    exact ⟨a, ha1, by simpa using ha2, rfl⟩
  constructor
  · intro b
    constructor
    · intro hb
      rcases List.mem_map.1 hb with ⟨a, ha, rfl⟩
      rcases List.mem_filter.1 ha with ⟨ha1, ha2⟩
      exact ⟨a, ha1, by simpa using ha2, rfl⟩
    · rintro ⟨a, ha, harssi, rfl⟩
      exact List.mem_map.2 ⟨a, List.mem_filter.2 ⟨ha, by simpa using harssi⟩, rfl⟩
  · intro r hr
    rcases mem_scan_all_devices hr with ⟨d, _, rfl⟩ | ⟨b, hb, _, rfl⟩
    · constructor
      · intro addr haddr
        rw [DeviceRecord.bleAddr, matchPaired_isBle] at haddr
        simp only [if_neg Bool.false_ne_true] at haddr
        revert haddr
        unfold matchPaired
        rcases hms : bleMatchesFor (scan_ble_devices adverts) (pyLower d.name) with
          _ | ⟨m, _ | ⟨m', rest⟩⟩ <;> intro haddr
        · simp at haddr
        · obtain rfl : m.address = addr := by simpa using haddr
          exact hmem m (mem_of_mem_bleMatchesFor (by rw [hms]; exact List.mem_cons_self m _))
        · obtain rfl : m.address = addr := by simpa using haddr
          exact hmem m (mem_of_mem_bleMatchesFor (by rw [hms]; exact List.mem_cons_self m _))
      · intro addrs haddrs addr haddr
        revert haddrs
        unfold matchPaired
        rcases hms : bleMatchesFor (scan_ble_devices adverts) (pyLower d.name) with
          _ | ⟨m, _ | ⟨m', rest⟩⟩ <;> intro haddrs
        · simp at haddrs
        · simp at haddrs
        · obtain rfl : (m :: m' :: rest).map (·.address) = addrs := by
            simpa using haddrs
          rcases List.mem_map.1 haddr with ⟨m0, hm0, rfl⟩
          exact hmem m0 (mem_of_mem_bleMatchesFor (by rw [hms]; exact hm0))
    · refine ⟨?_, by simp⟩
      intro addr haddr
      obtain rfl : b.address = addr := by
        simpa [DeviceRecord.bleAddr] using haddr
      exact hmem b hb

/-- Witness for C9: a weak (−80) and a strong (−50) advertisement; the
catalog holds exactly the strong sighting's record. -/
theorem scan_ble_devices_rssi_filter_witness :
    (∀ addr, (DeviceRecord.mk "33:44" "Strong" false none none true).bleAddr = some addr →
      ∃ a ∈ [BleAdvert.mk "11:22" (some "Weak") (-80),
             BleAdvert.mk "33:44" (some "Strong") (-50)],
        a.rssi > -70 ∧ addr = a.address) ∧
    (∀ addrs, (DeviceRecord.mk "33:44" "Strong" false none none true).ble_addresses_all =
        some addrs → ∀ addr ∈ addrs,
      ∃ a ∈ [BleAdvert.mk "11:22" (some "Weak") (-80),
             BleAdvert.mk "33:44" (some "Strong") (-50)],
        a.rssi > -70 ∧ addr = a.address) :=
  (scan_ble_devices_rssi_filter
    [⟨"11:22", some "Weak", -80⟩, ⟨"33:44", some "Strong", -50⟩] []).2
    ⟨"33:44", "Strong", false, none, none, true⟩ (by decide)

/-! ## Host battery lookup lemmas -/

/-- The parsing loop finds a value exactly when some grouped
(address, battery) entry's address normalizes to the target. -/
theorem batteryScanLoop_isSome (tgt : String) :
    ∀ (lines : List HostLine) (cur : Option String),
      (batteryScanLoop tgt (cur.map normalizeAddr) lines).isSome = true ↔
        ∃ p ∈ hostEntries cur lines, normalizeAddr p.1 = tgt := by
  intro lines
  induction lines with
  | nil => intro cur; simp [batteryScanLoop, hostEntries]
  | cons l rest ih =>
    intro cur
    cases l with
    | addressLine a =>
        have h := ih (some a)
        simp only [Option.map_some] at h
        simpa [batteryScanLoop, hostEntries] using h
    | batteryLine b' =>
        cases cur with
        | none =>
            have h := ih none
            simpa [batteryScanLoop, hostEntries] using h
        | some a =>
            by_cases hc : normalizeAddr a = tgt
            · constructor
              · intro _
                exact ⟨(a, b'), by simp [hostEntries], hc⟩
              · intro _
                simp [batteryScanLoop, hc]
            · constructor
              · intro hl
                have hl' : (batteryScanLoop tgt ((some a).map normalizeAddr) rest).isSome = true := by
                  simpa [batteryScanLoop, hc] using hl
                obtain ⟨p, hp, hnp⟩ := (ih (some a)).1 hl'
                exact ⟨p, by simp [hostEntries, hp], hnp⟩
              · rintro ⟨p, hp, hnp⟩
                simp only [hostEntries, List.singleton_append, List.mem_cons] at hp
                rcases hp with rfl | hp
                · exact absurd hnp hc
                · have := (ih (some a)).2 ⟨p, hp, hnp⟩
                  simpa [batteryScanLoop, hc] using this
    | other =>
        have h := ih cur
        simpa [batteryScanLoop, hostEntries] using h

/-- Any value the parsing loop returns is one of the battery values in the
output. -/
theorem batteryScanLoop_mem_values (tgt : String) :
    ∀ (lines : List HostLine) (cur : Option String) (b : Nat),
      batteryScanLoop tgt cur lines = some b → b ∈ hostBatteryValues lines := by
  intro lines
  induction lines with
  | nil => intro cur b h; simp [batteryScanLoop] at h
  | cons l rest ih =>
    intro cur b h
    cases l with
    | addressLine a =>
        have := ih (some (normalizeAddr a)) b (by simpa [batteryScanLoop] using h)
        simpa [hostBatteryValues, List.filterMap_cons] using this
    | batteryLine b' =>
        by_cases hc : cur = some tgt
        · have hb : b' = b := by simpa [batteryScanLoop, hc] using h
          subst hb
          simp [hostBatteryValues, List.filterMap_cons]
        · have := ih cur b (by simpa [batteryScanLoop, hc] using h)
          simp only [hostBatteryValues, List.filterMap_cons] at this ⊢
          exact List.mem_cons_of_mem _ this
    | other =>
        have := ih cur b (by simpa [batteryScanLoop] using h)
        simpa [hostBatteryValues, List.filterMap_cons] using this

/-! ## Claim theorems: battery chain -/

/-- C10: with the `ioreg` query succeeding, `get_system_battery_info`
returns a battery value exactly when some host-table entry's raw address
equals the queried address after both are lower-cased and `'-'` is
replaced by `':'`. -/
theorem get_system_battery_info_normalized_match (address : String)
    (lines : List HostLine) :
    (get_system_battery_info true address lines).isSome = true ↔
      ∃ p ∈ hostEntries none lines, normalizeAddr p.1 = normalizeAddr address := by
  have h := batteryScanLoop_isSome (normalizeAddr address) lines none
  simpa [get_system_battery_info] using h

/-- Witness for C10: a dash-separated upper-case query matching a
colon-separated lower-case host entry. -/
theorem get_system_battery_info_normalized_match_witness :
    (get_system_battery_info true "AA-BB-CC"
      [.addressLine "aa:bb:cc", .batteryLine 85]).isSome = true :=
  (get_system_battery_info_normalized_match "AA-BB-CC"
    [.addressLine "aa:bb:cc", .batteryLine 85]).mpr
    ⟨("aa:bb:cc", 85), by decide, by decide⟩

/-- C4: when the host-level lookup returns a value,
`get_battery_level_direct` returns that value immediately and its trace
opens no GATT session (zero GATT connect attempts). -/
theorem get_battery_host_first (env : BatteryEnv) (address : String)
    (ble_address : Option String) (is_connected : Bool) (b : Nat)
    (h : get_system_battery_info env.ioregOk address env.hostLines = some b) :
    (get_battery_level_direct env address ble_address is_connected).1 = some b ∧
    ((get_battery_level_direct env address ble_address is_connected).2.countP
      Event.isGattConnect) = 0 := by
  unfold get_battery_level_direct
  rw [h]
  exact ⟨rfl, by simp [Event.isGattConnect]⟩

/-- Witness for C4 at a host table carrying the queried address. -/
theorem get_battery_host_first_witness :
    (get_battery_level_direct
      ⟨true, [.addressLine "aa:bb", .batteryLine 85], false, [], fun _ => none⟩
      "AA:BB" (some "11:22") true).1 = some 85 ∧
    ((get_battery_level_direct
      ⟨true, [.addressLine "aa:bb", .batteryLine 85], false, [], fun _ => none⟩
      "AA:BB" (some "11:22") true).2.countP Event.isGattConnect) = 0 :=
  get_battery_host_first
    ⟨true, [.addressLine "aa:bb", .batteryLine 85], false, [], fun _ => none⟩
    "AA:BB" (some "11:22") true 85 (by decide)

/-- A successful inner battery-characteristic read is one of the raw
handle-read results' first bytes. -/
theorem readFirstBatteryChar_source (readChar : Nat → Option (List Nat)) :
    ∀ (cs : List GattChar) (b : Nat),
      readFirstBatteryChar readChar cs = some b →
      ∃ h t, readChar h = some (b :: t) := by
  intro cs
  induction cs with
  | nil => intro b h; simp [readFirstBatteryChar] at h
  | cons c rest ih =>
    intro b h
    rw [readFirstBatteryChar] at h
    by_cases hu : strContainsSubstr (pyLower c.uuid) (pyLower batteryLevelCharUuid)
    · rw [if_pos hu] at h
      rcases hr : readChar c.handle with _ | v
      · rw [hr] at h
        exact ih b h
      · rw [hr] at h
        cases v with
        | nil => exact ih b h
        | cons b0 t =>
            obtain rfl : b0 = b := by simpa using h
            exact ⟨c.handle, t, hr⟩
    · rw [if_neg hu] at h
      exact ih b h

/-- A value of the battery-service pass comes from a raw handle read. -/
theorem batteryFromBatteryServices_source (readChar : Nat → Option (List Nat)) :
    ∀ (svcs : List GattService) (b : Nat),
      batteryFromBatteryServices readChar svcs = some b →
      ∃ h t, readChar h = some (b :: t) := by
  intro svcs
  induction svcs with
  | nil => intro b h; simp [batteryFromBatteryServices] at h
  | cons s rest ih =>
    intro b h
    rw [batteryFromBatteryServices] at h
    by_cases hu : strContainsSubstr (pyLower s.uuid) (pyLower batteryServiceUuid)
    · rw [if_pos hu] at h
      rcases hr : readFirstBatteryChar readChar s.characteristics with _ | b0
      · rw [hr] at h
        exact ih b h
      · rw [hr] at h
        obtain rfl : b0 = b := by simpa using h
        exact readFirstBatteryChar_source readChar s.characteristics b0 hr
    · rw [if_neg hu] at h
      exact ih b h

/-- A value of the all-services pass comes from a raw handle read. -/
theorem batteryFromAllServices_source (readChar : Nat → Option (List Nat)) :
    ∀ (svcs : List GattService) (b : Nat),
      batteryFromAllServices readChar svcs = some b →
      ∃ h t, readChar h = some (b :: t) := by
  intro svcs
  induction svcs with
  | nil => intro b h; simp [batteryFromAllServices] at h
  | cons s rest ih =>
    intro b h
    rw [batteryFromAllServices] at h
    rcases hr : readFirstBatteryChar readChar s.characteristics with _ | b0
    · rw [hr] at h
      exact ih b h
    · rw [hr] at h
      obtain rfl : b0 = b := by simpa using h
      exact readFirstBatteryChar_source readChar s.characteristics b0 hr

/-- C7 counterexample: a device whose Battery Level characteristic reports
the byte 200 makes `get_battery_level_direct` return 200, outside 0–100
(the code never clamps the first byte it reads). -/
theorem get_battery_range_counterexample :
    (get_battery_level_direct
      { ioregOk := false, hostLines := [], connectSucceeds := true,
        services := [⟨batteryServiceUuid, [⟨batteryLevelCharUuid, 25⟩]⟩],
        readChar := fun _ => some [200] }
      "AA:BB" (some "11:22") false).1 = some 200 ∧ ¬ (200 ≤ 100) :=
  ⟨by decide, by decide⟩

/-- C7 as amended: `get_battery_level_direct` always returns `None` or an
integer (every failure degrades to `None`, nothing escalates), and the
integer lies in 0–100 whenever every battery value the host table and the
GATT characteristic reads supply lies in 0–100; the GATT path returns the
raw first byte, so a non-conforming device can push it above 100. -/
theorem get_battery_range_amended (env : BatteryEnv) (address : String)
    (ble_address : Option String) (is_connected : Bool)
    (hhost : ∀ b ∈ hostBatteryValues env.hostLines, b ≤ 100)
    (hgatt : ∀ h b t, env.readChar h = some (b :: t) → b ≤ 100) :
    (get_battery_level_direct env address ble_address is_connected).1 = none ∨
    ∃ b, (get_battery_level_direct env address ble_address is_connected).1 = some b ∧
      b ≤ 100 := by
  unfold get_battery_level_direct
  rcases hh : get_system_battery_info env.ioregOk address env.hostLines with _ | b
  · rcases hcs : env.connectSucceeds with _ | _
    · left; simp [hcs]
    · rcases h1 : batteryFromBatteryServices env.readChar env.services with _ | b1
      · rcases h2 : batteryFromAllServices env.readChar env.services with _ | b2
        · left; simp [hcs, h1, h2]
        · right
          refine ⟨b2, by simp [hcs, h1, h2], ?_⟩
          obtain ⟨hd, t, hr⟩ := batteryFromAllServices_source env.readChar env.services b2 h2
          exact hgatt hd b2 t hr
      · right
        refine ⟨b1, by simp [hcs, h1], ?_⟩
        obtain ⟨hd, t, hr⟩ := batteryFromBatteryServices_source env.readChar env.services b1 h1
        exact hgatt hd b1 t hr
  · right
    refine ⟨b, by simp, ?_⟩
    have hb : b ∈ hostBatteryValues env.hostLines := by
      unfold get_system_battery_info at hh
      rcases hok : env.ioregOk with _ | _
      · rw [hok] at hh; simp at hh
      · rw [hok] at hh
        simp only [if_pos rfl] at hh
        exact batteryScanLoop_mem_values (normalizeAddr address) env.hostLines none b hh
    exact hhost b hb

/-- Witness for the amended C7: an environment with no host entries and a
rejected GATT read, where the result degrades to `None`. -/
theorem get_battery_range_amended_witness :
    (get_battery_level_direct ⟨true, [], true, [], fun _ => none⟩
      "AA:BB" (some "11:22") false).1 = none ∨
    ∃ b, (get_battery_level_direct ⟨true, [], true, [], fun _ => none⟩
      "AA:BB" (some "11:22") false).1 = some b ∧ b ≤ 100 :=
  get_battery_range_amended ⟨true, [], true, [], fun _ => none⟩
    "AA:BB" (some "11:22") false (by simp [hostBatteryValues])
    (fun _ _ _ hb => nomatch hb)

/-! ## Ordering property: disconnect-then-settle before GATT connect -/

/-- Every GATT connect attempt in the trace is strictly preceded by a
system disconnect of the device followed by the 2-second settle sleep. -/
def disconnectSettleBeforeConnect (address : String) (trace : List Event) : Prop :=
  ∀ k e, trace.get? k = some e → e.isGattConnect = true →
    ∃ i j, i < j ∧ j < k ∧
      trace.get? i = some (.disconnectSystem address) ∧
      trace.get? j = some (.sleep 2)

/-- The empty trace satisfies the ordering property. -/
theorem disconnectSettleBeforeConnect_nil (address : String) :
    disconnectSettleBeforeConnect address [] := by
  intro k e hk
  simp at hk

/-- A trace that starts with the disconnect-then-settle pair satisfies the
ordering property. -/
theorem disconnectSettleBeforeConnect_firstTwo (address : String)
    (rest : List Event) :
    disconnectSettleBeforeConnect address
      (.disconnectSystem address :: .sleep 2 :: rest) := by
  intro k e hk hconn
  match k with
  | 0 =>
      obtain rfl : Event.disconnectSystem address = e := by simpa using hk
      simp [Event.isGattConnect] at hconn
  | 1 =>
      obtain rfl : Event.sleep 2 = e := by simpa using hk
      simp [Event.isGattConnect] at hconn
  | (k' + 2) =>
      exact ⟨0, 1, by omega, by omega, rfl, rfl⟩

/-- Prepending a non-connect event preserves the ordering property. -/
theorem disconnectSettleBeforeConnect_cons (address : String) (e0 : Event)
    (h0 : e0.isGattConnect = false) (trace : List Event)
    (h : disconnectSettleBeforeConnect address trace) :
    disconnectSettleBeforeConnect address (e0 :: trace) := by
  intro k e hk hconn
  match k with
  | 0 =>
      obtain rfl : e0 = e := by simpa using hk
      rw [hconn] at h0
      cases h0
  | (k' + 1) =>
      obtain ⟨i, j, hij, hjk, hi, hj⟩ := h k' e (by simpa using hk) hconn
      exact ⟨i + 1, j + 1, by omega, by omega, by simpa using hi, by simpa using hj⟩

/-! ## Claim theorems: orchestration and characteristic access -/

/-- C2: with `is_connected = true`, each GATT operation (battery read,
characteristic read, characteristic write) places the system disconnect and
the 2-second settle sleep strictly before any GATT connect attempt in its
trace; a GATT connect never precedes the disconnect. -/
theorem gatt_ops_disconnect_before_connect (env : GattEnv) (benv : BatteryEnv)
    (address uuid : String) (data : List Nat) (ble_address : Option String) :
    disconnectSettleBeforeConnect address
      (read_gatt_characteristic env address uuid ble_address true).2 ∧
    disconnectSettleBeforeConnect address
      (write_gatt_characteristic env address uuid data ble_address true).2 ∧
    disconnectSettleBeforeConnect address
      (get_battery_level_direct benv address ble_address true).2 := by
  refine ⟨?_, ?_, ?_⟩
  · unfold read_gatt_characteristic
    rcases hcs : env.connectSucceeds with _ | _
    · simpa [hcs] using
        disconnectSettleBeforeConnect_firstTwo address _
    · rcases hr : env.readResult (resolveIdentifier uuid) with _ | v <;>
        simpa [hcs, hr] using
          disconnectSettleBeforeConnect_firstTwo address _
  · unfold write_gatt_characteristic
    rcases hcs : env.connectSucceeds with _ | _ <;>
      simpa [hcs] using
        disconnectSettleBeforeConnect_firstTwo address _
  · unfold get_battery_level_direct
    rcases hh : get_system_battery_info benv.ioregOk address benv.hostLines with _ | b
    · rcases hcs : benv.connectSucceeds with _ | _ <;>
        exact disconnectSettleBeforeConnect_cons address (.hostBatteryQuery address)
          rfl _ (disconnectSettleBeforeConnect_firstTwo address _)
    · exact disconnectSettleBeforeConnect_cons address (.hostBatteryQuery address)
        rfl _ (disconnectSettleBeforeConnect_nil address)

/-- Witness for C2 at a concrete environment and device. -/
theorem gatt_ops_disconnect_before_connect_witness :
    disconnectSettleBeforeConnect "AA:BB"
      (read_gatt_characteristic ⟨true, fun _ => some [100], fun _ _ => true⟩
        "AA:BB" "25" (some "11:22") true).2 :=
  (gatt_ops_disconnect_before_connect ⟨true, fun _ => some [100], fun _ _ => true⟩
    ⟨false, [], false, [], fun _ => none⟩ "AA:BB" "25" [] (some "11:22")).1

/-- C6: an identifier made only of decimal digits resolves to the numeric
attribute handle it denotes, anything else passes through as a UUID
string, and the GATT read and write operations issue their characteristic
access at exactly that resolved reference. -/
theorem gatt_identifier_resolution (env : GattEnv) (address s : String)
    (data : List Nat) (ble_address : Option String) (is_connected : Bool)
    (hc : env.connectSucceeds = true) :
    (isDigits s = true → resolveIdentifier s = .handle (parseDecimal s)) ∧
    (isDigits s = false → resolveIdentifier s = .uuid s) ∧
    Event.gattRead (resolveIdentifier s) ∈
      (read_gatt_characteristic env address s ble_address is_connected).2 ∧
    Event.gattWrite (resolveIdentifier s) data ∈
      (write_gatt_characteristic env address s data ble_address is_connected).2 := by
  refine ⟨?_, ?_, ?_, ?_⟩
  · intro h; simp [resolveIdentifier, h]
  · intro h; simp [resolveIdentifier, h]
  · unfold read_gatt_characteristic
    rcases hr : env.readResult (resolveIdentifier s) with _ | v <;>
      simp [hc, hr]
  · unfold write_gatt_characteristic
    simp [hc]

/-- Witness for C6: `"25"` resolves as handle 25 and the Battery Level UUID
string resolves as a UUID. -/
theorem gatt_identifier_resolution_witness :
    resolveIdentifier "25" = .handle 25 ∧
    resolveIdentifier "00002a19-0000-1000-8000-00805f9b34fb" =
      .uuid "00002a19-0000-1000-8000-00805f9b34fb" :=
  ⟨((gatt_identifier_resolution ⟨true, fun _ => none, fun _ _ => false⟩
      "AA:BB" "25" [] none false rfl).1 (by decide)).trans (by decide),
   (gatt_identifier_resolution ⟨true, fun _ => none, fun _ _ => false⟩
      "AA:BB" "00002a19-0000-1000-8000-00805f9b34fb" [] none false rfl).2.1
      (by decide)⟩

/-- Looking up the just-inserted key of the known-devices dict yields the
just-inserted name. -/
theorem dictGet_dictInsert (d : List (String × String)) (k v : String) :
    dictGet (dictInsert d k v) k = some v := by
  unfold dictInsert
  by_cases h : d.any (fun p => decide (p.1 = k))
  · rw [if_pos h]
    induction d with
    | nil => simp at h
    | cons p rest ih =>
      by_cases hp : p.1 = k
      · simp [dictGet, List.find?, hp]
      · have hr : rest.any (fun p => decide (p.1 = k)) = true := by
          simpa [hp] using h
        simp only [List.map_cons, if_neg hp]
        unfold dictGet
        rw [List.find?_cons_of_neg _ (by simpa using hp)]
        exact ih hr
  · rw [if_neg h]
    induction d with
    | nil => simp [dictGet, List.find?]
    | cons p rest ih =>
      have hp : ¬ (p.1 = k) := by
        intro hk
        exact h (by simp [List.any_cons, hk])
      have hr : ¬ (rest.any (fun p => decide (p.1 = k)) = true) := by
        intro hk
        exact h (by simp [List.any_cons, hk])
      simp only [List.cons_append]
      unfold dictGet
      rw [List.find?_cons_of_neg _ (by simpa using hp)]
      exact ih hr

/-- C8: `connect_device_system` is write-through on success — an OS-level
success persists `address → name` into the known-devices map and a 2-second
stabilization sleep precedes the `True` return — and atomic on failure: an
OS-level failure or exception returns `False` with the map unchanged. -/
theorem connect_system_atomic (env : SystemConnectEnv)
    (known : List (String × String)) (address name : String) :
    (env.osConnectResult = some true →
      (connect_device_system env known address name).1 = true ∧
      dictGet (connect_device_system env known address name).2.1 address = some name ∧
      (connect_device_system env known address name).2.2 =
        [.systemConnect address, .sleep 2]) ∧
    (env.osConnectResult ≠ some true →
      (connect_device_system env known address name).1 = false ∧
      (connect_device_system env known address name).2.1 = known) := by
  constructor
  · intro h
    have hc : connect_device_system env known address name =
        (true, dictInsert known address name,
          [.systemConnect address, .sleep 2]) := by
      unfold connect_device_system
      rw [h]
    rw [hc]
    exact ⟨rfl, dictGet_dictInsert known address name, rfl⟩
  · intro h
    rcases hres : env.osConnectResult with _ | b
    · simp [connect_device_system, hres]
    · cases b
      · simp [connect_device_system, hres]
      · exact absurd hres h

/-- Witness for C8: both the success and the failure branch at concrete
inputs. -/
theorem connect_system_atomic_witness :
    ((connect_device_system ⟨some true⟩ [] "AA:BB" "Buds").1 = true ∧
      dictGet (connect_device_system ⟨some true⟩ [] "AA:BB" "Buds").2.1 "AA:BB" =
        some "Buds" ∧
      (connect_device_system ⟨some true⟩ [] "AA:BB" "Buds").2.2 =
        [.systemConnect "AA:BB", .sleep 2]) ∧
    ((connect_device_system ⟨some false⟩ [] "AA:BB" "Buds").1 = false ∧
      (connect_device_system ⟨some false⟩ [] "AA:BB" "Buds").2.1 = []) :=
  ⟨(connect_system_atomic ⟨some true⟩ [] "AA:BB" "Buds").1 rfl,
   (connect_system_atomic ⟨some false⟩ [] "AA:BB" "Buds").2 (by decide)⟩

/-- C3 counterexample: `read_gatt_characteristic` performs no BLE-address
validation — with no BLE address and an empty system address it still
attempts a transport connect (to the empty target), and its result `none`
is exactly the result of a genuine transport failure, so the caller cannot
distinguish the two. -/
theorem gatt_no_ble_validation_counterexample :
    (read_gatt_characteristic ⟨false, fun _ => none, fun _ _ => false⟩
      "" "25" none false).1 = none ∧
    Event.gattConnectAttempt "" 15 ∈
      (read_gatt_characteristic ⟨false, fun _ => none, fun _ _ => false⟩
        "" "25" none false).2 ∧
    (read_gatt_characteristic ⟨false, fun _ => none, fun _ _ => false⟩
      "AA:BB" "25" (some "11:22") false).1 = none :=
  ⟨by decide, by decide, by decide⟩

/-- C3 as amended: only the service-layer `list_gatt_services` validates the
BLE address — an absent/empty `ble_address` yields the caller-visible
"no BLE UUID" error with no transport connect, distinguishable from the
transport-failure error — while the hybrid manager's GATT read, write and
battery operations perform no such validation: they fall back to the system
address as connect target, attempt the transport connect (battery after its
host-table miss), and on a failed connect report `None`/`False`/`None`, the
identical results these operations produce on any transport failure. -/
theorem gatt_no_ble_address_amended (env : ServiceEnv) (genv : GattEnv)
    (benv : BatteryEnv) (address uuid : String) (data : List Nat)
    (ble_address : Option String) (is_connected : Bool)
    (h : pyTruthyStr ble_address = false)
    (hhost : get_system_battery_info benv.ioregOk address benv.hostLines = none) :
    ((list_gatt_services env address ble_address).1.error = some noBleErrorMsg ∧
     (list_gatt_services env address ble_address).2 = [] ∧
     noBleErrorMsg ≠ gattConnectErrorMsg) ∧
    (pyStrOr ble_address address = address ∧
     Event.gattConnectAttempt address 15 ∈
       (read_gatt_characteristic genv address uuid ble_address is_connected).2 ∧
     Event.gattConnectAttempt address 15 ∈
       (write_gatt_characteristic genv address uuid data ble_address is_connected).2 ∧
     Event.gattConnectAttempt address 10 ∈
       (get_battery_level_direct benv address ble_address is_connected).2) ∧
    (genv.connectSucceeds = false → benv.connectSucceeds = false →
      (read_gatt_characteristic genv address uuid ble_address is_connected).1 = none ∧
      (write_gatt_characteristic genv address uuid data ble_address is_connected).1 = false ∧
      (get_battery_level_direct benv address ble_address is_connected).1 = none ∧
      ∀ o : Option String,
        (read_gatt_characteristic genv address uuid o is_connected).1 = none ∧
        (write_gatt_characteristic genv address uuid data o is_connected).1 = false ∧
        (get_battery_level_direct benv address o is_connected).1 = none) := by
  have hps : pyStrOr ble_address address = address := by
    rcases ble_address with _ | s
    · rfl
    · have hs : s = "" := by simpa [pyTruthyStr] using h
      simp [pyStrOr, hs]
  refine ⟨⟨?_, ?_, by decide⟩, ⟨hps, ?_, ?_, ?_⟩, ?_⟩
  · simp [list_gatt_services, h]
  · simp [list_gatt_services, h]
  · unfold read_gatt_characteristic
    rcases hcs : genv.connectSucceeds with _ | _
    · simp [hcs, hps]
    · rcases hr : genv.readResult (resolveIdentifier uuid) with _ | v <;>
        simp [hcs, hr, hps]
  · unfold write_gatt_characteristic
    rcases hcs : genv.connectSucceeds with _ | _ <;> simp [hcs, hps]
  · unfold get_battery_level_direct
    rw [hhost]
    rcases hcs : benv.connectSucceeds with _ | _ <;> simp [hcs, hps]
  · intro hcs hbcs
    refine ⟨?_, ?_, ?_, ?_⟩
    · unfold read_gatt_characteristic
      simp [hcs]
    · unfold write_gatt_characteristic
      simp [hcs]
    · unfold get_battery_level_direct
      rw [hhost]
      simp [hbcs]
    · intro o
      refine ⟨?_, ?_, ?_⟩
      · unfold read_gatt_characteristic
        simp [hcs]
      · unfold write_gatt_characteristic
        simp [hcs]
      · unfold get_battery_level_direct
        rw [hhost]
        simp [hbcs]

/-- Witness for the amended C3 at `ble_address = none`, an empty host
table, and a transport whose connect fails. -/
theorem gatt_no_ble_address_amended_witness :
    ((list_gatt_services ⟨false, none⟩ "AA:BB" none).1.error = some noBleErrorMsg ∧
     (list_gatt_services ⟨false, none⟩ "AA:BB" none).2 = [] ∧
     noBleErrorMsg ≠ gattConnectErrorMsg) ∧
    (pyStrOr none "AA:BB" = "AA:BB" ∧
     Event.gattConnectAttempt "AA:BB" 15 ∈
       (read_gatt_characteristic ⟨false, fun _ => none, fun _ _ => false⟩
         "AA:BB" "25" none false).2 ∧
     Event.gattConnectAttempt "AA:BB" 15 ∈
       (write_gatt_characteristic ⟨false, fun _ => none, fun _ _ => false⟩
         "AA:BB" "25" [] none false).2 ∧
     Event.gattConnectAttempt "AA:BB" 10 ∈
       (get_battery_level_direct ⟨false, [], false, [], fun _ => none⟩
         "AA:BB" none false).2) ∧
    ((⟨false, fun _ => none, fun _ _ => false⟩ : GattEnv).connectSucceeds = false →
     (⟨false, [], false, [], fun _ => none⟩ : BatteryEnv).connectSucceeds = false →
      (read_gatt_characteristic ⟨false, fun _ => none, fun _ _ => false⟩
        "AA:BB" "25" none false).1 = none ∧
      (write_gatt_characteristic ⟨false, fun _ => none, fun _ _ => false⟩
        "AA:BB" "25" [] none false).1 = false ∧
      (get_battery_level_direct ⟨false, [], false, [], fun _ => none⟩
        "AA:BB" none false).1 = none ∧
      ∀ o : Option String,
        (read_gatt_characteristic ⟨false, fun _ => none, fun _ _ => false⟩
          "AA:BB" "25" o false).1 = none ∧
        (write_gatt_characteristic ⟨false, fun _ => none, fun _ _ => false⟩
          "AA:BB" "25" [] o false).1 = false ∧
        (get_battery_level_direct ⟨false, [], false, [], fun _ => none⟩
          "AA:BB" o false).1 = none) :=
  gatt_no_ble_address_amended ⟨false, none⟩ ⟨false, fun _ => none, fun _ _ => false⟩
    ⟨false, [], false, [], fun _ => none⟩ "AA:BB" "25" [] none false rfl (by decide)

end HackNasa
